import Mathlib

/-!
Shallow embedding of the class-feedback application (src/app.py).

The embedding covers the data model (User, Feedback), the authentication
flow (login POST, set-password POST, password checking) and the feedback
upsert and view queries.  Databases rows become Lean lists, the Flask
session becomes an explicit Session record, and wall-clock timestamps
become Nat parameters passed to the operations that read the clock.
-/

namespace Slammer

/-- Model of the Python str.strip method: drop whitespace from both ends.
Implemented by structural recursion on the character list so that the kernel
can evaluate it on concrete inputs. -/
def pyStrip (s : String) : String :=
  ⟨((s.data.dropWhile Char.isWhitespace).reverse.dropWhile Char.isWhitespace).reverse⟩

/-- Model of the Python str.lower method: lowercase every character. -/
def pyLower (s : String) : String :=
  ⟨s.data.map Char.toLower⟩

/-- Model of the external werkzeug.security.generate_password_hash: a
deterministic stand-in for a salted one-way hash.  The only contract the
application relies on is that check_password_hash (generate_password_hash p) p
holds, and that the produced hash is a non-empty string. -/
def generate_password_hash (raw : String) : String :=
  "pbkdf2:sha256$salt$" ++ raw

/-- Model of the external werkzeug.security.check_password_hash, paired with
the stand-in generate_password_hash above. -/
def check_password_hash (h raw : String) : Bool :=
  h == generate_password_hash raw

/-- User row (class User in src/app.py): id, name, email, optional password
hash, creation timestamp. -/
structure User where
  id : Nat
  name : String
  email : String
  password_hash : Option String
  created_at : Nat
deriving Repr, DecidableEq

/-- Feedback row (class Feedback in src/app.py): id, sender and recipient
user ids, free-text content, visibility flag, creation timestamp. -/
structure Feedback where
  id : Nat
  sender_id : Nat
  recipient_id : Nat
  content : String
  visible : Bool
  created_at : Nat
deriving Repr, DecidableEq

/-- Python truthiness test `not self.password_hash`: true when the column is
NULL or the empty string. -/
def hashFalsy : Option String → Bool
  | none => true
  | some h => h == ""

/-- User.set_password: store the hash of the raw password. -/
def User.set_password (u : User) (raw : String) : User :=
  { u with password_hash := some (generate_password_hash raw) }

/-- User.check_password: returns False when no hash is stored, otherwise
delegates to check_password_hash. -/
def User.check_password (u : User) (raw : String) : Bool :=
  match u.password_hash with
  | none => false
  | some h => if h == "" then false else check_password_hash h raw

/-- The persistent store: the users table and the feedback table. -/
structure Store where
  users : List User
  feedbacks : List Feedback
deriving Repr, DecidableEq

/-- The Flask session as used by the app: the authenticated user id
(session key user_id) and the pre-auth pending id (session key pre_user_id). -/
structure Session where
  user_id : Option Nat
  pre_user_id : Option Nat
deriving Repr, DecidableEq

/-- `User.query.filter_by(email=email).first()`. -/
def findUserByEmail (users : List User) (email : String) : Option User :=
  users.find? (fun u => u.email == email)

/-- `User.query.get(uid)`: lookup by primary key (first row with that id). -/
def findUserById (users : List User) (uid : Nat) : Option User :=
  users.find? (fun u => u.id == uid)

/-- Outcome of the login POST handler, matching its flash/redirect branches. -/
inductive LoginResult
  | unknownEmail
  | redirectSetPassword
  | welcome
  | incorrectPassword
deriving Repr, DecidableEq

/-- The POST branch of the login route (src/app.py lines 95-113): normalize
the email (strip + lowercase), look the user up; unknown email flashes and
redirects; a user without a password hash gets pre_user_id set and is sent to
set-password; otherwise the password is checked and user_id set on success. -/
def login_post (st : Store) (sess : Session) (rawEmail password : String) :
    LoginResult × Session :=
  let email := pyLower (pyStrip rawEmail)
  match findUserByEmail st.users email with
  | none => (LoginResult.unknownEmail, sess)
  | some user =>
    if hashFalsy user.password_hash then
      (LoginResult.redirectSetPassword, { sess with pre_user_id := some user.id })
    else if user.check_password password then
      (LoginResult.welcome, { sess with user_id := some user.id })
    else
      (LoginResult.incorrectPassword, sess)

/-- Outcome of the set-password POST handler. -/
inductive SetPasswordResult
  | noPending
  | userNotFound
  | passwordMismatch
  | success
deriving Repr, DecidableEq

/-- In-place mutation of the user row fetched by primary key: apply
set_password to the first row carrying the given id. -/
def setPasswordOnFirst (uid : Nat) (raw : String) : List User → List User
  | [] => []
  | u :: rest =>
    if u.id == uid then u.set_password raw :: rest
    else u :: setPasswordOnFirst uid raw rest

/-- The set-password route, POST branch (src/app.py lines 118-142): requires
pre_user_id in the session and an existing user; rejects when the password is
empty or the two fields differ (`if not p1 or p1 != p2`), leaving everything
unchanged; on success stores the hash, clears pre_user_id and sets user_id. -/
def set_password_post (st : Store) (sess : Session) (p1 p2 : String) :
    SetPasswordResult × Store × Session :=
  match sess.pre_user_id with
  | none => (SetPasswordResult.noPending, st, sess)
  | some pre_id =>
    match findUserById st.users pre_id with
    | none => (SetPasswordResult.userNotFound, st, sess)
    | some user =>
      if p1 = "" ∨ p1 ≠ p2 then
        (SetPasswordResult.passwordMismatch, st, sess)
      else
        (SetPasswordResult.success,
          { st with users := setPasswordOnFirst pre_id p1 st.users },
          { user_id := some user.id, pre_user_id := none })

/-- Outcome of the give-feedback POST handler, matching its flash branches. -/
inductive FeedbackResult
  | emptyContent
  | updated
  | created
deriving Repr, DecidableEq

/-- The filter_by(sender_id=s, recipient_id=r) predicate. -/
def matchesPair (f : Feedback) (s r : Nat) : Bool :=
  f.sender_id == s && f.recipient_id == r

/-- In-place mutation of the row returned by `.first()`: overwrite content and
visible on the first row matching the (sender, recipient) pair.  The creation
timestamp is not touched (the route assigns only content and visible). -/
def updateFirst (s r : Nat) (content : String) (visible : Bool) :
    List Feedback → List Feedback
  | [] => []
  | f :: rest =>
    if matchesPair f s r then
      { f with content := content, visible := visible } :: rest
    else
      f :: updateFirst s r content visible rest

/-- The give-feedback route, POST branch (src/app.py lines 173-193): trim the
content and reject when empty; otherwise look for an existing row keyed by
(sender, recipient) and overwrite its content and visibility, or insert a new
row with the current time as creation timestamp.  `now` is the clock value at
insert and `nextId` the primary key the database would assign. -/
def give_feedback_post (st : Store) (sender_id recipient_id : Nat)
    (rawContent : String) (visible : Bool) (now nextId : Nat) :
    FeedbackResult × Store :=
  let content := pyStrip rawContent
  if content = "" then
    (FeedbackResult.emptyContent, st)
  else
    match st.feedbacks.find? (fun f => matchesPair f sender_id recipient_id) with
    | some _ =>
      (FeedbackResult.updated,
        { st with feedbacks := updateFirst sender_id recipient_id content visible st.feedbacks })
    | none =>
      (FeedbackResult.created,
        { st with feedbacks := st.feedbacks ++
            [{ id := nextId, sender_id := sender_id, recipient_id := recipient_id,
               content := content, visible := visible, created_at := now }] })

/-- Descending order on creation timestamps, the order_by argument
`Feedback.created_at.desc()` of the view-feedback queries. -/
def createdGe (a b : Feedback) : Prop :=
  b.created_at ≤ a.created_at

instance : DecidableRel createdGe :=
  fun a b => Nat.decLe b.created_at a.created_at

instance : IsTotal Feedback createdGe :=
  ⟨fun a b => Nat.le_total b.created_at a.created_at⟩

instance : IsTrans Feedback createdGe :=
  ⟨fun _ _ _ hab hbc => Nat.le_trans hbc hab⟩

/-- `Feedback.query.filter_by(sender_id=uid).order_by(created_at.desc()).all()`
from the view-feedback route (src/app.py line 211). -/
def view_feedback_given (st : Store) (uid : Nat) : List Feedback :=
  List.insertionSort createdGe (st.feedbacks.filter (fun f => f.sender_id == uid))

/-- `Feedback.query.filter_by(recipient_id=uid).order_by(created_at.desc()).all()`
from the view-feedback route (src/app.py line 212). -/
def view_feedback_received (st : Store) (uid : Nat) : List Feedback :=
  List.insertionSort createdGe (st.feedbacks.filter (fun f => f.recipient_id == uid))

/-- Logical key of a feedback row. -/
def pairKey (f : Feedback) : Nat × Nat :=
  (f.sender_id, f.recipient_id)

/-- At most one feedback row per (sender, recipient) ordered pair: all pair
keys in the table are distinct. -/
def feedbackInvariant (fbs : List Feedback) : Prop :=
  (fbs.map pairKey).Pairwise (· ≠ ·)

/-- Primary-key uniqueness of the users table. -/
def usersInvariant (users : List User) : Prop :=
  (users.map User.id).Pairwise (· ≠ ·)

/-- The feedback rows stored for a given (sender, recipient) pair. -/
def recordsFor (fbs : List Feedback) (s r : Nat) : List Feedback :=
  fbs.filter (fun f => matchesPair f s r)

instance (fbs : List Feedback) : Decidable (feedbackInvariant fbs) :=
  inferInstanceAs (Decidable ((fbs.map pairKey).Pairwise (· ≠ ·)))

instance (users : List User) : Decidable (usersInvariant users) :=
  inferInstanceAs (Decidable ((users.map User.id).Pairwise (· ≠ ·)))

/-! ## Helper lemmas -/

lemma matchesPair_eq_true_iff {f : Feedback} {s r : Nat} :
    matchesPair f s r = true ↔ pairKey f = (s, r) := by
  simp [matchesPair, pairKey, Prod.ext_iff]

lemma pairKey_overwrite (f : Feedback) (c : String) (v : Bool) :
    pairKey { f with content := c, visible := v } = pairKey f := rfl

lemma matchesPair_overwrite (f : Feedback) (c : String) (v : Bool) (s r : Nat) :
    matchesPair { f with content := c, visible := v } s r = matchesPair f s r := rfl

lemma map_pairKey_updateFirst (s r : Nat) (c : String) (v : Bool) :
    ∀ fbs : List Feedback, (updateFirst s r c v fbs).map pairKey = fbs.map pairKey := by
  intro fbs
  induction fbs with
  | nil => rfl
  | cons f rest ih =>
    by_cases h : matchesPair f s r
    · simp [updateFirst, h, pairKey_overwrite]
    · simp [updateFirst, h, ih]

lemma feedbackInvariant_cons {f : Feedback} {rest : List Feedback} :
    feedbackInvariant (f :: rest) ↔
      (∀ g ∈ rest, pairKey f ≠ pairKey g) ∧ feedbackInvariant rest := by
  simp [feedbackInvariant, List.pairwise_cons]

lemma feedbackInvariant_updateFirst {fbs : List Feedback} (s r : Nat)
    (c : String) (v : Bool) (hinv : feedbackInvariant fbs) :
    feedbackInvariant (updateFirst s r c v fbs) := by
  unfold feedbackInvariant
  rw [map_pairKey_updateFirst]
  exact hinv

lemma recordsFor_nil_of_find_none {fbs : List Feedback} {s r : Nat}
    (h : fbs.find? (fun f => matchesPair f s r) = none) :
    recordsFor fbs s r = [] := by
  rw [recordsFor, List.filter_eq_nil_iff]
  intro f hf
  simpa using List.find?_eq_none.mp h f hf

lemma recordsFor_updateFirst (s r : Nat) (c : String) (v : Bool) :
    ∀ (fbs : List Feedback), feedbackInvariant fbs →
      ∀ f, fbs.find? (fun g => matchesPair g s r) = some f →
      recordsFor (updateFirst s r c v fbs) s r =
        [{ f with content := c, visible := v }] := by
  intro fbs
  induction fbs with
  | nil => intro _ f hf; simp at hf
  | cons f0 rest ih =>
    intro hinv f hf
    by_cases hm : matchesPair f0 s r
    · simp only [List.find?_cons, hm] at hf
      cases hf
      have hrest : recordsFor rest s r = [] := by
        rw [recordsFor, List.filter_eq_nil_iff]
        intro g hg hgm
        have hkey0 : pairKey f0 = (s, r) := matchesPair_eq_true_iff.mp hm
        have hkeyg : pairKey g = (s, r) :=
          matchesPair_eq_true_iff.mp (by simpa using hgm)
        exact (feedbackInvariant_cons.mp hinv).1 g hg (hkey0.trans hkeyg.symm)
      rw [recordsFor] at hrest ⊢
      simp [updateFirst, hm, List.filter, matchesPair_overwrite, hrest]
    · rw [Bool.not_eq_true] at hm
      simp only [List.find?_cons, hm] at hf
      have ihr := ih (feedbackInvariant_cons.mp hinv).2 f hf
      rw [recordsFor] at ihr ⊢
      simp [updateFirst, hm, List.filter, ihr]

lemma recordsFor_append (fbs l2 : List Feedback) (s r : Nat) :
    recordsFor (fbs ++ l2) s r = recordsFor fbs s r ++ recordsFor l2 s r := by
  simp [recordsFor, List.filter_append]

/-- Core upsert property: with non-empty trimmed content, one submission
leaves exactly one row for the pair, carrying the submitted content and
visibility. -/
lemma records_after_submit (st : Store) (s r : Nat) (raw : String) (v : Bool)
    (now nid : Nat) (hinv : feedbackInvariant st.feedbacks)
    (hne : pyStrip raw ≠ "") :
    ∃ f, recordsFor ((give_feedback_post st s r raw v now nid).2).feedbacks s r = [f] ∧
      f.content = pyStrip raw ∧ f.visible = v := by
  cases hfind : st.feedbacks.find? (fun f => matchesPair f s r) with
  | some f0 =>
    refine ⟨{ f0 with content := pyStrip raw, visible := v }, ?_, rfl, rfl⟩
    simp only [give_feedback_post, if_neg hne, hfind]
    exact recordsFor_updateFirst s r (pyStrip raw) v st.feedbacks hinv f0 hfind
  | none =>
    refine ⟨⟨nid, s, r, pyStrip raw, v, now⟩, ?_, rfl, rfl⟩
    simp only [give_feedback_post, if_neg hne, hfind]
    rw [recordsFor_append, recordsFor_nil_of_find_none hfind]
    simp [recordsFor, matchesPair]

/-- The upsert preserves the one-row-per-pair invariant, on success and on
failure alike. -/
lemma feedbackInvariant_give_feedback (st : Store) (s r : Nat) (raw : String)
    (v : Bool) (now nid : Nat) (hinv : feedbackInvariant st.feedbacks) :
    feedbackInvariant ((give_feedback_post st s r raw v now nid).2).feedbacks := by
  by_cases hc : pyStrip raw = ""
  · simpa [give_feedback_post, hc] using hinv
  · cases hfind : st.feedbacks.find? (fun f => matchesPair f s r) with
    | some f0 =>
      simp only [give_feedback_post, if_neg hc, hfind]
      exact feedbackInvariant_updateFirst s r (pyStrip raw) v hinv
    | none =>
      simp only [give_feedback_post, if_neg hc, hfind]
      unfold feedbackInvariant
      rw [List.map_append, List.pairwise_append]
      refine ⟨hinv, by simp, ?_⟩
      intro a ha b hb
      simp only [List.map_cons, List.map_nil, List.mem_singleton] at hb
      subst hb
      rcases List.mem_map.mp ha with ⟨g, hg, rfl⟩
      have hgm : ¬ matchesPair g s r = true := by
        simpa using List.find?_eq_none.mp hfind g hg
      intro heq
      exact hgm (matchesPair_eq_true_iff.mpr (by simpa [pairKey] using heq))

lemma give_feedback_emptyContent_iff (st : Store) (s r : Nat) (raw : String)
    (v : Bool) (now nid : Nat) :
    (give_feedback_post st s r raw v now nid).1 = FeedbackResult.emptyContent ↔
      pyStrip raw = "" := by
  by_cases hc : pyStrip raw = ""
  · simp [give_feedback_post, hc]
  · cases hfind : st.feedbacks.find? (fun f => matchesPair f s r) <;>
      simp [give_feedback_post, hc, hfind]

lemma give_feedback_empty_unchanged (st : Store) (s r : Nat) (raw : String)
    (v : Bool) (now nid : Nat) (hc : pyStrip raw = "") :
    (give_feedback_post st s r raw v now nid).2 = st := by
  simp [give_feedback_post, hc]

lemma usersInvariant_cons {u : User} {rest : List User} :
    usersInvariant (u :: rest) ↔
      (∀ w ∈ rest, u.id ≠ w.id) ∧ usersInvariant rest := by
  simp [usersInvariant, List.pairwise_cons]

lemma findUserById_of_mem :
    ∀ (users : List User), usersInvariant users →
      ∀ u ∈ users, findUserById users u.id = some u := by
  intro users
  induction users with
  | nil => intro _ u hu; simp at hu
  | cons v rest ih =>
    intro hinv u hu
    rcases List.mem_cons.mp hu with rfl | hu
    · simp [findUserById, List.find?_cons]
    · have hne : v.id ≠ u.id := (usersInvariant_cons.mp hinv).1 u hu
      have : (v.id == u.id) = false := by simpa using hne
      simpa [findUserById, List.find?_cons, this] using
        ih (usersInvariant_cons.mp hinv).2 u hu

lemma User.set_password_id (u : User) (p : String) :
    (u.set_password p).id = u.id := rfl

lemma findUserById_setPasswordOnFirst (uid : Nat) (p : String) :
    ∀ users : List User,
      findUserById (setPasswordOnFirst uid p users) uid =
        (findUserById users uid).map (fun u => u.set_password p) := by
  intro users
  induction users with
  | nil => rfl
  | cons u rest ih =>
    by_cases h : u.id = uid
    · simp [setPasswordOnFirst, findUserById, List.find?_cons,
        User.set_password_id, h]
    · have hb : (u.id == uid) = false := by simpa using h
      simp [setPasswordOnFirst, findUserById, List.find?_cons, hb] at ih ⊢
      exact ih

lemma generate_password_hash_ne_empty (p : String) :
    generate_password_hash p ≠ "" := by
  intro h
  have hlen := congrArg String.length h
  rw [generate_password_hash, String.length_append] at hlen
  have h1 : ("pbkdf2:sha256$salt$" : String).length = 19 := rfl
  have h2 : ("" : String).length = 0 := rfl
  rw [h1, h2] at hlen
  omega

lemma check_password_set_password (u : User) (p : String) :
    (u.set_password p).check_password p = true := by
  have hne : (generate_password_hash p == "") = false := by
    simpa using generate_password_hash_ne_empty p
  simp [User.check_password, User.set_password, hne, check_password_hash]

/-! ## Claim theorems -/

/-- C1, counterexample: starting from an empty store, submitting
(1,2,"x",true) at time 0 and then (1,2,"y",false) at time 5 leaves the single
row for the pair with creation timestamp 0, not 5: the update path overwrites
content and visibility but does not overwrite the timestamp, contrary to the
claim. -/
theorem claim_update_overwrites_timestamp_counterexample :
    (recordsFor ((give_feedback_post
        ((give_feedback_post ⟨[], []⟩ 1 2 "x" true 0 1).2)
        1 2 "y" false 5 2).2).feedbacks 1 2).map Feedback.created_at = [0] ∧
    ¬ (recordsFor ((give_feedback_post
        ((give_feedback_post ⟨[], []⟩ 1 2 "x" true 0 1).2)
        1 2 "y" false 5 2).2).feedbacks 1 2).map Feedback.created_at = [5] :=
  ⟨by decide, by decide⟩

/-- C1, amended: when a row for (s, r) exists in a store satisfying the
one-row-per-pair invariant, a submission with non-empty trimmed content
reports an update and leaves exactly one row for the pair, with the new
content and visibility; the creation timestamp is left unchanged, hence it is
still greater than or equal to the timestamp of the first record. -/
theorem claim_update_semantics_amended (st : Store) (s r : Nat) (c2 : String)
    (v2 : Bool) (now2 nid2 : Nat) (f : Feedback)
    (hinv : feedbackInvariant st.feedbacks)
    (hfind : st.feedbacks.find? (fun g => matchesPair g s r) = some f)
    (hne : pyStrip c2 ≠ "") :
    (give_feedback_post st s r c2 v2 now2 nid2).1 = FeedbackResult.updated ∧
    recordsFor ((give_feedback_post st s r c2 v2 now2 nid2).2).feedbacks s r =
      [{ f with content := pyStrip c2, visible := v2 }] ∧
    ({ f with content := pyStrip c2, visible := v2 } : Feedback).created_at =
      f.created_at ∧
    f.created_at ≤
      ({ f with content := pyStrip c2, visible := v2 } : Feedback).created_at := by
  refine ⟨?_, ?_, rfl, Nat.le_refl _⟩
  · simp [give_feedback_post, hne, hfind]
  · simp only [give_feedback_post, if_neg hne, hfind]
    exact recordsFor_updateFirst s r (pyStrip c2) v2 st.feedbacks hinv f hfind

/-- Witness for the amended C1 theorem at a concrete input. -/
theorem claim_update_semantics_amended_witness :
    feedbackInvariant ([⟨1, 1, 2, "x", true, 0⟩] : List Feedback) ∧
    ([(⟨1, 1, 2, "x", true, 0⟩ : Feedback)].find?
        (fun g => matchesPair g 1 2) = some ⟨1, 1, 2, "x", true, 0⟩) ∧
    pyStrip "y" ≠ "" ∧
    ((give_feedback_post ⟨[], [⟨1, 1, 2, "x", true, 0⟩]⟩ 1 2 "y" false 5 2).1 =
        FeedbackResult.updated ∧
      recordsFor ((give_feedback_post ⟨[], [⟨1, 1, 2, "x", true, 0⟩]⟩
          1 2 "y" false 5 2).2).feedbacks 1 2 = [⟨1, 1, 2, pyStrip "y", false, 0⟩] ∧
      (⟨1, 1, 2, pyStrip "y", false, 0⟩ : Feedback).created_at =
        (⟨1, 1, 2, "x", true, 0⟩ : Feedback).created_at ∧
      (⟨1, 1, 2, "x", true, 0⟩ : Feedback).created_at ≤
        (⟨1, 1, 2, pyStrip "y", false, 0⟩ : Feedback).created_at) :=
  ⟨by decide, by decide, by decide,
    claim_update_semantics_amended ⟨[], [⟨1, 1, 2, "x", true, 0⟩]⟩ 1 2 "y" false 5 2
      ⟨1, 1, 2, "x", true, 0⟩ (by decide) (by decide) (by decide)⟩

/-- C2, counterexample: from a starting store that already holds two rows for
the pair (1,2) — reachable only by racing inserts, but a store state all the
same — submitting (1,2,"x",true) twice still leaves two rows for the pair,
because the upsert only ever updates the first matching row.  The claim as
stated quantifies over every starting store, so it fails here. -/
theorem claim_idempotent_counterexample :
    (recordsFor ((give_feedback_post
        ((give_feedback_post ⟨[], [⟨1, 1, 2, "a", true, 0⟩, ⟨2, 1, 2, "b", true, 0⟩]⟩
            1 2 "x" true 3 7).2)
        1 2 "x" true 4 8).2).feedbacks 1 2).length = 2 ∧
    ¬ (recordsFor ((give_feedback_post
        ((give_feedback_post ⟨[], [⟨1, 1, 2, "a", true, 0⟩, ⟨2, 1, 2, "b", true, 0⟩]⟩
            1 2 "x" true 3 7).2)
        1 2 "x" true 4 8).2).feedbacks 1 2).length = 1 :=
  ⟨by decide, by decide⟩

/-- C2, amended: from any starting store satisfying the one-row-per-pair
invariant, submitting (s, r, raw, true) twice with non-empty trimmed content
leaves exactly one row for the pair, and its content is the trimmed
submission. -/
theorem claim_idempotent_amended (st : Store) (s r : Nat) (raw : String)
    (now1 nid1 now2 nid2 : Nat)
    (hinv : feedbackInvariant st.feedbacks)
    (hne : pyStrip raw ≠ "") :
    ∃ f, recordsFor ((give_feedback_post
        ((give_feedback_post st s r raw true now1 nid1).2)
        s r raw true now2 nid2).2).feedbacks s r = [f] ∧
      f.content = pyStrip raw := by
  have hinv1 := feedbackInvariant_give_feedback st s r raw true now1 nid1 hinv
  rcases records_after_submit ((give_feedback_post st s r raw true now1 nid1).2)
      s r raw true now2 nid2 hinv1 hne with ⟨f, h1, h2, _⟩
  exact ⟨f, h1, h2⟩

/-- Witness for the amended C2 theorem at a concrete input. -/
theorem claim_idempotent_amended_witness :
    feedbackInvariant ([] : List Feedback) ∧ pyStrip "x" ≠ "" ∧
    (∃ f, recordsFor ((give_feedback_post
        ((give_feedback_post ⟨[], []⟩ 1 2 "x" true 0 1).2)
        1 2 "x" true 5 2).2).feedbacks 1 2 = [f] ∧ f.content = pyStrip "x") :=
  ⟨by decide, by decide,
    claim_idempotent_amended ⟨[], []⟩ 1 2 "x" 0 1 5 2 (by decide) (by decide)⟩

/-- C3: the store holds at most one feedback row per (sender, recipient)
ordered pair, and every submitFeedback call — whether it reports empty
content, an update, or a creation — preserves that invariant. -/
theorem claim_invariant_preserved (st : Store) (s r : Nat) (raw : String)
    (v : Bool) (now nid : Nat) (hinv : feedbackInvariant st.feedbacks) :
    feedbackInvariant ((give_feedback_post st s r raw v now nid).2).feedbacks :=
  feedbackInvariant_give_feedback st s r raw v now nid hinv

/-- Witness for the C3 theorem at a concrete input. -/
theorem claim_invariant_preserved_witness :
    feedbackInvariant ([⟨1, 1, 2, "a", true, 0⟩] : List Feedback) ∧
    feedbackInvariant ((give_feedback_post ⟨[], [⟨1, 1, 2, "a", true, 0⟩]⟩
        3 4 "x" true 5 2).2).feedbacks :=
  ⟨by decide,
    claim_invariant_preserved ⟨[], [⟨1, 1, 2, "a", true, 0⟩]⟩ 3 4 "x" true 5 2
      (by decide)⟩

/-- C4: the submission reports EmptyContent exactly when the content is empty
after trimming, and in that case the store is returned unchanged. -/
theorem claim_empty_content (st : Store) (s r : Nat) (raw : String) (v : Bool)
    (now nid : Nat) :
    ((give_feedback_post st s r raw v now nid).1 = FeedbackResult.emptyContent ↔
      pyStrip raw = "") ∧
    (pyStrip raw = "" → (give_feedback_post st s r raw v now nid).2 = st) :=
  ⟨give_feedback_emptyContent_iff st s r raw v now nid,
    give_feedback_empty_unchanged st s r raw v now nid⟩

/-- Witness for the C4 theorem at a concrete input. -/
theorem claim_empty_content_witness :
    pyStrip "  " = "" ∧
    (give_feedback_post ⟨[], []⟩ 1 2 "  " true 0 1).1 =
      FeedbackResult.emptyContent ∧
    (give_feedback_post ⟨[], []⟩ 1 2 "  " true 0 1).2 = (⟨[], []⟩ : Store) :=
  ⟨by decide,
    (claim_empty_content ⟨[], []⟩ 1 2 "  " true 0 1).1.mpr (by decide),
    (claim_empty_content ⟨[], []⟩ 1 2 "  " true 0 1).2 (by decide)⟩

/-- C5: with a pending user resolved, the set-password POST reports
PasswordMismatch exactly when the two fields differ or either is empty, and
on that failure it returns the store and the session unchanged — so no hash
is stored and no authenticated session is established. -/
theorem claim_set_password_mismatch (st : Store) (sess : Session)
    (uid : Nat) (user : User) (p1 p2 : String)
    (hpre : sess.pre_user_id = some uid)
    (huser : findUserById st.users uid = some user) :
    ((set_password_post st sess p1 p2).1 = SetPasswordResult.passwordMismatch ↔
      (p1 ≠ p2 ∨ p1 = "" ∨ p2 = "")) ∧
    ((p1 ≠ p2 ∨ p1 = "" ∨ p2 = "") →
      set_password_post st sess p1 p2 =
        (SetPasswordResult.passwordMismatch, st, sess)) := by
  have hcond : (p1 = "" ∨ p1 ≠ p2) ↔ (p1 ≠ p2 ∨ p1 = "" ∨ p2 = "") := by
    constructor
    · rintro (h | h)
      · exact Or.inr (Or.inl h)
      · exact Or.inl h
    · rintro (h | h | h)
      · exact Or.inr h
      · exact Or.inl h
      · by_cases h12 : p1 = p2
        · exact Or.inl (h12.trans h)
        · exact Or.inr h12
  constructor
  · rw [← hcond]
    by_cases hc : p1 = "" ∨ p1 ≠ p2
    · simp [set_password_post, hpre, huser, hc]
    · simp [set_password_post, hpre, huser, hc]
  · intro h
    have hc : p1 = "" ∨ p1 ≠ p2 := hcond.mpr h
    simp [set_password_post, hpre, huser, hc]

/-- Witness for the C5 theorem at a concrete input. -/
theorem claim_set_password_mismatch_witness :
    (⟨none, some 1⟩ : Session).pre_user_id = some 1 ∧
    findUserById [⟨1, "A", "a@b.c", none, 0⟩] 1 =
      some ⟨1, "A", "a@b.c", none, 0⟩ ∧
    set_password_post ⟨[⟨1, "A", "a@b.c", none, 0⟩], []⟩ ⟨none, some 1⟩ "a" "b" =
      (SetPasswordResult.passwordMismatch,
        ⟨[⟨1, "A", "a@b.c", none, 0⟩], []⟩, ⟨none, some 1⟩) :=
  ⟨rfl, by decide,
    (claim_set_password_mismatch ⟨[⟨1, "A", "a@b.c", none, 0⟩], []⟩
        ⟨none, some 1⟩ 1 ⟨1, "A", "a@b.c", none, 0⟩ "a" "b" rfl (by decide)).2
      (by decide)⟩

/-- C6: for a stored user with no credential whose email resolves, the login
POST redirects to set-password with the pending id set; setting a non-empty
password p (entered twice) succeeds, establishes an authenticated session for
that user, and afterwards the stored user record verifies p. -/
theorem claim_first_login_roundtrip (st : Store) (sess : Session)
    (email p : String) (u : User)
    (husers : usersInvariant st.users)
    (hfind : findUserByEmail st.users (pyLower (pyStrip email)) = some u)
    (hnone : u.password_hash = none)
    (hp : p ≠ "") :
    ∃ sess1 st2 sess2 u2,
      login_post st sess email "" = (LoginResult.redirectSetPassword, sess1) ∧
      sess1.pre_user_id = some u.id ∧
      set_password_post st sess1 p p = (SetPasswordResult.success, st2, sess2) ∧
      sess2.user_id = some u.id ∧
      findUserById st2.users u.id = some u2 ∧
      u2.check_password p = true := by
  have hmem : u ∈ st.users := List.mem_of_find?_eq_some hfind
  have hbyid : findUserById st.users u.id = some u :=
    findUserById_of_mem st.users husers u hmem
  have hfalsy : hashFalsy u.password_hash = true := by simp [hashFalsy, hnone]
  refine ⟨{ sess with pre_user_id := some u.id },
    { st with users := setPasswordOnFirst u.id p st.users },
    ⟨some u.id, none⟩, u.set_password p, ?_, rfl, ?_, rfl, ?_, ?_⟩
  · simp [login_post, hfind, hfalsy]
  · have hc : ¬ (p = "" ∨ p ≠ p) := by
      rintro (h | h)
      · exact hp h
      · exact h rfl
    simp [set_password_post, hbyid, hc, hp]
  · show findUserById (setPasswordOnFirst u.id p st.users) u.id = _
    rw [findUserById_setPasswordOnFirst, hbyid]
    rfl
  · exact check_password_set_password u p

/-- Witness for the C6 theorem at a concrete input. -/
theorem claim_first_login_roundtrip_witness :
    usersInvariant [⟨1, "A", "a@b.c", none, 0⟩] ∧
    findUserByEmail [⟨1, "A", "a@b.c", none, 0⟩] (pyLower (pyStrip " A@B.c ")) =
      some ⟨1, "A", "a@b.c", none, 0⟩ ∧
    (∃ sess1 st2 sess2 u2,
      login_post ⟨[⟨1, "A", "a@b.c", none, 0⟩], []⟩ ⟨none, none⟩ " A@B.c " "" =
        (LoginResult.redirectSetPassword, sess1) ∧
      sess1.pre_user_id = some 1 ∧
      set_password_post ⟨[⟨1, "A", "a@b.c", none, 0⟩], []⟩ sess1 "pw" "pw" =
        (SetPasswordResult.success, st2, sess2) ∧
      sess2.user_id = some 1 ∧
      findUserById st2.users 1 = some u2 ∧
      u2.check_password "pw" = true) :=
  ⟨by decide, by decide,
    claim_first_login_roundtrip ⟨[⟨1, "A", "a@b.c", none, 0⟩], []⟩ ⟨none, none⟩
      " A@B.c " "pw" ⟨1, "A", "a@b.c", none, 0⟩ (by decide) (by decide) rfl
      (by decide)⟩

/-- C7: when the trimmed, lowercased email matches no stored user, the login
POST reports the unknown-email failure and returns the session unchanged, so
neither an authenticated session nor a pending state is established. -/
theorem claim_unknown_email (st : Store) (sess : Session) (email pw : String)
    (h : ∀ u ∈ st.users, u.email ≠ pyLower (pyStrip email)) :
    login_post st sess email pw = (LoginResult.unknownEmail, sess) := by
  have hfind : findUserByEmail st.users (pyLower (pyStrip email)) = none := by
    rw [findUserByEmail, List.find?_eq_none]
    intro u hu
    simpa using h u hu
  simp [login_post, hfind]

/-- Witness for the C7 theorem at a concrete input. -/
theorem claim_unknown_email_witness :
    (∀ u ∈ ([⟨1, "A", "a@b.c", none, 0⟩] : List User),
      u.email ≠ pyLower (pyStrip "z@b.c")) ∧
    login_post ⟨[⟨1, "A", "a@b.c", none, 0⟩], []⟩ ⟨none, none⟩ "z@b.c" "" =
      (LoginResult.unknownEmail, (⟨none, none⟩ : Session)) :=
  ⟨by decide,
    claim_unknown_email ⟨[⟨1, "A", "a@b.c", none, 0⟩], []⟩ ⟨none, none⟩
      "z@b.c" "" (by decide)⟩

/-- C8, counterexample: with a store whose only user has id 1, a submission
addressed to recipient id 99 — which references no user — does not fail at
the application layer: it reports a creation and inserts the row.  Recipient
existence is enforced only by the database foreign-key constraint. -/
theorem claim_recipient_check_counterexample :
    ([(⟨1, "A", "a@b.c", none, 0⟩ : User)].all (fun u => u.id != 99) = true) ∧
    (give_feedback_post ⟨[⟨1, "A", "a@b.c", none, 0⟩], []⟩ 1 99 "hi" true 0 1).1 =
      FeedbackResult.created ∧
    (give_feedback_post ⟨[⟨1, "A", "a@b.c", none, 0⟩], []⟩
        1 99 "hi" true 0 1).2.feedbacks = [⟨1, 1, 99, "hi", true, 0⟩] :=
  ⟨by decide, by decide, by decide⟩

/-- C8, amended: the application layer performs no recipient-existence check.
For every store satisfying the pair invariant and every recipient id that
matches no stored user, a submission with non-empty trimmed content does not
fail: it leaves exactly one row for the pair, carrying the submitted content.
Recipient existence is enforced only by the database foreign-key constraint,
outside the application logic. -/
theorem claim_no_recipient_check_amended (st : Store) (s r : Nat)
    (raw : String) (v : Bool) (now nid : Nat)
    (hinv : feedbackInvariant st.feedbacks)
    (_hnouser : ∀ u ∈ st.users, u.id ≠ r)
    (hne : pyStrip raw ≠ "") :
    (give_feedback_post st s r raw v now nid).1 ≠ FeedbackResult.emptyContent ∧
    ∃ f, recordsFor ((give_feedback_post st s r raw v now nid).2).feedbacks s r =
        [f] ∧ f.content = pyStrip raw := by
  constructor
  · intro h
    exact hne ((give_feedback_emptyContent_iff st s r raw v now nid).mp h)
  · rcases records_after_submit st s r raw v now nid hinv hne with ⟨f, h1, h2, _⟩
    exact ⟨f, h1, h2⟩

/-- Witness for the amended C8 theorem at a concrete input. -/
theorem claim_no_recipient_check_amended_witness :
    feedbackInvariant ([] : List Feedback) ∧
    (∀ u ∈ ([⟨1, "A", "a@b.c", none, 0⟩] : List User), u.id ≠ 99) ∧
    pyStrip "hi" ≠ "" ∧
    ((give_feedback_post ⟨[⟨1, "A", "a@b.c", none, 0⟩], []⟩ 1 99 "hi" true 0 1).1 ≠
        FeedbackResult.emptyContent ∧
      ∃ f, recordsFor ((give_feedback_post ⟨[⟨1, "A", "a@b.c", none, 0⟩], []⟩
          1 99 "hi" true 0 1).2).feedbacks 1 99 = [f] ∧ f.content = pyStrip "hi") :=
  ⟨by decide, by decide, by decide,
    claim_no_recipient_check_amended ⟨[⟨1, "A", "a@b.c", none, 0⟩], []⟩ 1 99
      "hi" true 0 1 (by decide) (by decide) (by decide)⟩

/-- C9: the view-feedback query returns the rows sent by the user and the
rows received by the user, each arranged with creation timestamps in
descending order (newest first): the given list and the received list are
permutations of the respective filters of the store and are sorted by the
descending-timestamp relation. -/
theorem claim_view_feedback_sorted (st : Store) (uid : Nat) :
    (view_feedback_given st uid).Pairwise
      (fun a b => b.created_at ≤ a.created_at) ∧
    (view_feedback_given st uid).Perm
      (st.feedbacks.filter (fun f => f.sender_id == uid)) ∧
    (view_feedback_received st uid).Pairwise
      (fun a b => b.created_at ≤ a.created_at) ∧
    (view_feedback_received st uid).Perm
      (st.feedbacks.filter (fun f => f.recipient_id == uid)) :=
  ⟨List.sorted_insertionSort createdGe _,
    List.perm_insertionSort createdGe _,
    List.sorted_insertionSort createdGe _,
    List.perm_insertionSort createdGe _⟩

/-- C10: a user whose stored credential is absent is rejected for every
candidate password: check_password returns false whenever no password hash is
stored. -/
theorem claim_check_password_absent (u : User) (raw : String)
    (h : u.password_hash = none) :
    u.check_password raw = false := by
  simp [User.check_password, h]

/-- Witness for the C10 theorem at a concrete input. -/
theorem claim_check_password_absent_witness :
    (⟨1, "A", "a@b.c", none, 0⟩ : User).password_hash = none ∧
    (⟨1, "A", "a@b.c", none, 0⟩ : User).check_password "guess" = false :=
  ⟨rfl, claim_check_password_absent ⟨1, "A", "a@b.c", none, 0⟩ "guess" rfl⟩

end Slammer
